import Mathlib

/-!
Shallow embedding of the `sliponit/confidential-newsletter-app` repository.

Part 1 embeds the on-chain ledger
`src/hardhat/contracts/ConfidentialNewsletterLock.sol` (Solidity 0.8.24).
Addresses, wei amounts, timestamps and euint256 handles are modelled as
`Nat` (Solidity 0.8 reverts on overflow, so arithmetic on the reachable
values is plain natural-number arithmetic).  A reverting call is modelled
as `Except.error e`: no post-state is produced, which is exactly the
EVM's atomic-rollback semantics.  The `onlyOwner` modifier runs before
the function body, so the owner check is the first branch of every
owner-gated operation.  `FHE.allow(contentKey, a)` is modelled as the
ACL-set update `aclAllowed`; `FHE.allowThis` as the flag `aclThis`.
-/

/-- Contract storage of `ConfidentialNewsletterLock` plus the ETH balance
held by the contract (`address(this).balance`). -/
structure LockState where
  owner : Nat
  name : String
  subscriptionPrice : Nat
  subscriptionDuration : Nat
  /-- Handle of the FHE-encrypted AES-256 content key (`euint256`);
  the default handle 0 before any `setContentKey`. -/
  contentKey : Nat
  contentKeySet : Bool
  /-- `mapping(address => uint256) expirationTimestamps`; 0 = never subscribed. -/
  expirationTimestamps : Nat → Nat
  totalRevenue : Nat
  /-- FHE ACL: addresses allowed to user-decrypt `contentKey`. -/
  aclAllowed : Nat → Bool
  /-- `FHE.allowThis(contentKey)` has been called. -/
  aclThis : Bool
  /-- `address(this).balance`. -/
  balance : Nat

/-- The custom errors of the contract, plus OpenZeppelin `Ownable`'s
`OwnableUnauthorizedAccount` raised by the `onlyOwner` modifier. -/
inductive LockError where
  | InsufficientPayment (required provided : Nat)
  | ContentKeyAlreadySet
  | ContentKeyNotSet
  | NoValidSubscription
  | NoFundsToWithdraw
  | InvalidDuration
  | InvalidPrice
  | OwnableUnauthorizedAccount (account : Nat)
  deriving DecidableEq, Repr

/-- Events emitted by the contract. -/
inductive LockEvent where
  | ContentKeySet (setter : Nat)
  | SubscriptionPurchased (subscriber expirationTimestamp pricePaid : Nat)
  | SubscriptionRenewed (subscriber newExpirationTimestamp : Nat)
  | KeyAccessGranted (subscriber : Nat)
  | FundsWithdrawn (owner amount : Nat)
  | SubscriptionParamsUpdated (price duration : Nat)
  deriving DecidableEq, Repr

/-- The constructor: reverts with `InvalidDuration` when
`_subscriptionDuration == 0`, otherwise produces the initial storage. -/
def deployLock (deployer : Nat) (nm : String) (price duration : Nat) :
    Except LockError LockState :=
  if duration = 0 then .error .InvalidDuration
  else .ok
    { owner := deployer
      name := nm
      subscriptionPrice := price
      subscriptionDuration := duration
      contentKey := 0
      contentKeySet := false
      expirationTimestamps := fun _ => 0
      totalRevenue := 0
      aclAllowed := fun _ => false
      aclThis := false
      balance := 0 }

/-- `_isSubscriptionValid`: `expirationTimestamps[_subscriber] > block.timestamp`. -/
def isSubscriptionValid (s : LockState) (subscriber now : Nat) : Bool :=
  s.expirationTimestamps subscriber > now

/-- `setContentKey(externalEuint256,bytes)`, `onlyOwner`.  The verified
`FHE.fromExternal` result is modelled as the handle `key`. -/
def setContentKey (s : LockState) (caller key : Nat) :
    Except LockError (LockState × List LockEvent) :=
  if caller = s.owner then
    if s.contentKeySet then .error .ContentKeyAlreadySet
    else .ok
      ({ s with
          contentKey := key
          contentKeySet := true
          aclThis := true
          aclAllowed := fun a => if a = caller then true else s.aclAllowed a },
        [.ContentKeySet caller])
  else .error (.OwnableUnauthorizedAccount caller)

/-- `updateSubscriptionParams(uint256,uint256)`, `onlyOwner`. -/
def updateSubscriptionParams (s : LockState) (caller newPrice newDuration : Nat) :
    Except LockError (LockState × List LockEvent) :=
  if caller = s.owner then
    if newDuration = 0 then .error .InvalidDuration
    else .ok
      ({ s with subscriptionPrice := newPrice, subscriptionDuration := newDuration },
        [.SubscriptionParamsUpdated newPrice newDuration])
  else .error (.OwnableUnauthorizedAccount caller)

/-- `withdraw()`, `onlyOwner nonReentrant`: transfers the whole contract
balance to the owner. -/
def withdraw (s : LockState) (caller : Nat) :
    Except LockError (LockState × List LockEvent) :=
  if caller = s.owner then
    if s.balance = 0 then .error .NoFundsToWithdraw
    else .ok ({ s with balance := 0 }, [.FundsWithdrawn s.owner s.balance])
  else .error (.OwnableUnauthorizedAccount caller)

/-- `_createOrExtendSubscription(address,uint256,uint256)`: branch on a
pre-existing record (`expirationTimestamps[_subscriber] == 0`), extend
from `max(current expiration, now)`, grant the FHE ACL, and accumulate
`totalRevenue += _pricePaid`. -/
def createOrExtendSubscription (s : LockState) (subscriber duration pricePaid now : Nat) :
    LockState × List LockEvent :=
  let expirationTimestamp := s.expirationTimestamps subscriber
  if expirationTimestamp = 0 then
    let e := now + duration
    ({ s with
        expirationTimestamps := fun a => if a = subscriber then e else s.expirationTimestamps a
        aclAllowed := fun a => if a = subscriber then true else s.aclAllowed a
        totalRevenue := s.totalRevenue + pricePaid },
      [.SubscriptionPurchased subscriber e pricePaid, .KeyAccessGranted subscriber])
  else
    let baseTime := if expirationTimestamp > now then expirationTimestamp else now
    let e := baseTime + duration
    ({ s with
        expirationTimestamps := fun a => if a = subscriber then e else s.expirationTimestamps a
        aclAllowed := fun a => if a = subscriber then true else s.aclAllowed a
        totalRevenue := s.totalRevenue + pricePaid },
      [.SubscriptionRenewed subscriber e, .KeyAccessGranted subscriber])

/-- `subscribe()`, `payable nonReentrant`.  `value` is `msg.value`.  The
returned `Nat` is the refund transferred back to the caller; the ETH
sent with the call is credited to the contract and the refund debited,
so on success the balance grows by `value - refund`. -/
def subscribe (s : LockState) (caller value now : Nat) :
    Except LockError (LockState × Nat × List LockEvent) :=
  if s.contentKeySet then
    if value < s.subscriptionPrice then
      .error (.InsufficientPayment s.subscriptionPrice value)
    else
      let r := createOrExtendSubscription s caller s.subscriptionDuration value now
      let refund := if value > s.subscriptionPrice then value - s.subscriptionPrice else 0
      .ok ({ r.1 with balance := r.1.balance + value - refund }, refund, r.2)
  else .error .ContentKeyNotSet

/-- `grantSubscription(address,uint256)`, `onlyOwner`. -/
def grantSubscription (s : LockState) (caller subscriber duration now : Nat) :
    Except LockError (LockState × List LockEvent) :=
  if caller = s.owner then
    if s.contentKeySet then .ok (createOrExtendSubscription s subscriber duration 0 now)
    else .error .ContentKeyNotSet
  else .error (.OwnableUnauthorizedAccount caller)

/-- `getContentKey()`: reverts with `NoValidSubscription` unless the
caller has a live subscription or is the owner; otherwise returns the
content-key handle.  Note: the function performs no `contentKeySet` check. -/
def getContentKey (s : LockState) (caller now : Nat) : Except LockError Nat :=
  if !isSubscriptionValid s caller now && caller != s.owner then
    .error .NoValidSubscription
  else .ok s.contentKey

/-- `getSubscriptionDetails(address)`. -/
def getSubscriptionDetails (s : LockState) (subscriber now : Nat) : Nat × Bool :=
  (s.expirationTimestamps subscriber, isSubscriptionValid s subscriber now)

/-- States reachable from deployment through the contract's external
entry points. -/
inductive ReachableLock : LockState → Prop where
  | deploy (deployer : Nat) (nm : String) (price duration : Nat) (s : LockState) :
      deployLock deployer nm price duration = .ok s → ReachableLock s
  | setKey (s : LockState) (caller key : Nat) (s' : LockState) (evs : List LockEvent) :
      ReachableLock s → setContentKey s caller key = .ok (s', evs) → ReachableLock s'
  | params (s : LockState) (caller p d : Nat) (s' : LockState) (evs : List LockEvent) :
      ReachableLock s → updateSubscriptionParams s caller p d = .ok (s', evs) →
      ReachableLock s'
  | withdrawStep (s : LockState) (caller : Nat) (s' : LockState) (evs : List LockEvent) :
      ReachableLock s → withdraw s caller = .ok (s', evs) → ReachableLock s'
  | subscribeStep (s : LockState) (caller value now : Nat) (s' : LockState)
      (refund : Nat) (evs : List LockEvent) :
      ReachableLock s → subscribe s caller value now = .ok (s', refund, evs) →
      ReachableLock s'
  | grantStep (s : LockState) (caller subscriber duration now : Nat) (s' : LockState)
      (evs : List LockEvent) :
      ReachableLock s → grantSubscription s caller subscriber duration now = .ok (s', evs) →
      ReachableLock s'

/-! ### Concrete states used by witnesses and counterexamples -/

/-- The storage produced by `deployLock 0 "n" 100 2592000`: a freshly
deployed lock whose content key has not been set. -/
def freshLock : LockState :=
  { owner := 0
    name := "n"
    subscriptionPrice := 100
    subscriptionDuration := 2592000
    contentKey := 0
    contentKeySet := false
    expirationTimestamps := fun _ => 0
    totalRevenue := 0
    aclAllowed := fun _ => false
    aclThis := false
    balance := 0 }

theorem deploy_freshLock : deployLock 0 "n" 100 2592000 = Except.ok freshLock := rfl

/-- `freshLock` after the owner set content key 42: price 100,
duration 2592000 (30 days), no subscribers yet. -/
def demoLock : LockState :=
  { owner := 0
    name := "n"
    subscriptionPrice := 100
    subscriptionDuration := 2592000
    contentKey := 42
    contentKeySet := true
    expirationTimestamps := fun _ => 0
    totalRevenue := 0
    aclAllowed := fun a => if a = 0 then true else false
    aclThis := true
    balance := 0 }

theorem setKey_demoLock :
    setContentKey freshLock 0 42 = Except.ok (demoLock, [LockEvent.ContentKeySet 0]) := rfl

/-! ### Helper lemmas about `_createOrExtendSubscription` -/

theorem createOrExtend_expiration (s : LockState) (subscriber duration pricePaid now : Nat) :
    ((createOrExtendSubscription s subscriber duration pricePaid now).1).expirationTimestamps
        subscriber
      = max (s.expirationTimestamps subscriber) now + duration := by
  unfold createOrExtendSubscription
  dsimp only
  split
  · next h => simp [h]
  · next h =>
    simp
    split <;> omega

theorem createOrExtend_contentKeySet (s : LockState) (subscriber duration pricePaid now : Nat) :
    ((createOrExtendSubscription s subscriber duration pricePaid now).1).contentKeySet
      = s.contentKeySet := by
  unfold createOrExtendSubscription
  dsimp only
  split <;> rfl

theorem createOrExtend_totalRevenue (s : LockState) (subscriber duration pricePaid now : Nat) :
    ((createOrExtendSubscription s subscriber duration pricePaid now).1).totalRevenue
      = s.totalRevenue + pricePaid := by
  unfold createOrExtendSubscription
  dsimp only
  split <;> rfl

/-! ### Claim C1 -/

/-- Claim C1 (code_bug evidence): with price 100, a subscribe paying 150
at time 1000 succeeds, refunds exactly 50 = paidAmount - priceRequired
(the refund half of the claim), but `totalRevenue` grows by 150 — the
full `msg.value` (`totalRevenue += _pricePaid` in
`_createOrExtendSubscription`) — not by the 100 the claim states; only
the retained balance grows by 100. -/
theorem subscribe_revenue_adds_paidAmount :
    ∃ s' evs, subscribe demoLock 1 150 1000 = Except.ok (s', 50, evs)
      ∧ demoLock.subscriptionPrice = 100
      ∧ demoLock.totalRevenue = 0
      ∧ s'.totalRevenue = 150
      ∧ s'.balance = demoLock.balance + 100 := by
  refine ⟨_, _, rfl, rfl, rfl, rfl, rfl⟩

/-! ### Claim C2 -/

/-- Claim C2: on every successful `subscribe` or `grantSubscription`,
the target identity's new expiration equals
`max(prior expiration, now) + duration` (for a first-time record the
prior expiration is 0, so this is `now + duration`), and consequently
the per-identity expiration never decreases. -/
theorem subscription_expiration_max_rule (s : LockState)
    (caller value now subscriber duration : Nat) :
    (∀ s' refund evs, subscribe s caller value now = Except.ok (s', refund, evs) →
      s'.expirationTimestamps caller
          = max (s.expirationTimestamps caller) now + s.subscriptionDuration
        ∧ s.expirationTimestamps caller ≤ s'.expirationTimestamps caller)
    ∧ (∀ s' evs, grantSubscription s caller subscriber duration now = Except.ok (s', evs) →
      s'.expirationTimestamps subscriber
          = max (s.expirationTimestamps subscriber) now + duration
        ∧ s.expirationTimestamps subscriber ≤ s'.expirationTimestamps subscriber)
    := by
  constructor
  · intro s' refund evs h
    unfold subscribe at h
    split at h
    · split at h
      · cases h
      · simp only [Except.ok.injEq, Prod.mk.injEq] at h
        obtain ⟨hs, -, -⟩ := h
        subst hs
        have := createOrExtend_expiration s caller s.subscriptionDuration value now
        constructor
        · exact this
        · rw [this]; omega
    · cases h
  · intro s' evs h
    unfold grantSubscription at h
    split at h
    · split at h
      · simp only [Except.ok.injEq] at h
        have hs : s' = (createOrExtendSubscription s subscriber duration 0 now).1 := by
          rw [h]
        subst hs
        have := createOrExtend_expiration s subscriber duration 0 now
        constructor
        · exact this
        · rw [this]; omega
      · cases h
    · cases h

/-- Claim C2 witness: from the fresh demo state, a paid subscribe by
address 1 at time 1000 lands at expiration
`max 0 1000 + 2592000 = 2593000`. -/
theorem subscription_expiration_max_rule_witness :
    ∃ s' refund evs, subscribe demoLock 1 100 1000 = Except.ok (s', refund, evs)
      ∧ s'.expirationTimestamps 1 = 2593000
      ∧ demoLock.expirationTimestamps 1 ≤ s'.expirationTimestamps 1 := by
  refine ⟨_, _, _, rfl, ?_, ?_⟩
  · have h := ((subscription_expiration_max_rule demoLock 1 100 1000 0 0).1 _ _ _ rfl).1
    simpa using h
  · exact ((subscription_expiration_max_rule demoLock 1 100 1000 0 0).1 _ _ _ rfl).2

/-! ### Reachability invariant: no subscriber exists while the key is unset -/

/-- In every reachable state whose content key is unset, all expiration
timestamps are 0: `subscribe` and `grantSubscription` revert before
touching the ledger when `contentKeySet` is false, and `contentKeySet`
never transitions back to false. -/
theorem reachable_keyUnset_no_subscriber (s : LockState) (h : ReachableLock s) :
    s.contentKeySet = false → ∀ a, s.expirationTimestamps a = 0 := by
  induction h with
  | deploy deployer nm price duration s hdep =>
    intro _ a
    unfold deployLock at hdep
    split at hdep
    · cases hdep
    · simp only [Except.ok.injEq] at hdep
      subst hdep
      rfl
  | setKey s caller key s' evs hR hstep ih =>
    intro hk a
    unfold setContentKey at hstep
    split at hstep
    · split at hstep
      · cases hstep
      · simp only [Except.ok.injEq, Prod.mk.injEq] at hstep
        obtain ⟨hs, -⟩ := hstep
        subst hs
        simp at hk
    · cases hstep
  | params s caller p d s' evs hR hstep ih =>
    intro hk a
    unfold updateSubscriptionParams at hstep
    split at hstep
    · split at hstep
      · cases hstep
      · simp only [Except.ok.injEq, Prod.mk.injEq] at hstep
        obtain ⟨hs, -⟩ := hstep
        subst hs
        exact ih hk a
    · cases hstep
  | withdrawStep s caller s' evs hR hstep ih =>
    intro hk a
    unfold withdraw at hstep
    split at hstep
    · split at hstep
      · cases hstep
      · simp only [Except.ok.injEq, Prod.mk.injEq] at hstep
        obtain ⟨hs, -⟩ := hstep
        subst hs
        exact ih hk a
    · cases hstep
  | subscribeStep s caller value now s' refund evs hR hstep ih =>
    intro hk a
    unfold subscribe at hstep
    split at hstep
    · next hset =>
      split at hstep
      · cases hstep
      · simp only [Except.ok.injEq, Prod.mk.injEq] at hstep
        obtain ⟨hs, -, -⟩ := hstep
        subst hs
        have := createOrExtend_contentKeySet s caller s.subscriptionDuration value now
        simp only at hk
        rw [this, hset] at hk
        cases hk
    · cases hstep
  | grantStep s caller subscriber duration now s' evs hR hstep ih =>
    intro hk a
    unfold grantSubscription at hstep
    split at hstep
    · split at hstep
      · next hset =>
        simp only [Except.ok.injEq] at hstep
        have hs : s' = (createOrExtendSubscription s subscriber duration 0 now).1 := by
          rw [hstep]
        subst hs
        rw [createOrExtend_contentKeySet, hset] at hk
        cases hk
      · cases hstep
    · cases hstep

/-! ### Claim C3 -/

/-- Claim C3 counterexample: in the freshly deployed state the custody
key has never been set, yet the owner's `getContentKey` call succeeds
(returning the default handle 0) instead of failing with
`ContentKeyNotSet` — the function never checks `contentKeySet`. -/
theorem getContentKey_keyUnset_owner_ok :
    freshLock.contentKeySet = false
    ∧ getContentKey freshLock 0 0 = Except.ok 0
    ∧ getContentKey freshLock 0 0 ≠ Except.error LockError.ContentKeyNotSet := by
  refine ⟨rfl, rfl, by simp [getContentKey, isSubscriptionValid, freshLock]⟩

/-- Claim C3 (amended): `getContentKey` performs no custody-key check
and can never fail with `ContentKeyNotSet`.  In any reachable state
where the key has never been set, the owner's call succeeds (returning
the default handle) and every other caller — necessarily without a live
subscription, since none can exist in such a state — fails with
`NoValidSubscription`. -/
theorem getContentKey_keyUnset_behavior (s : LockState) (caller now : Nat)
    (hR : ReachableLock s) (hk : s.contentKeySet = false) :
    getContentKey s caller now ≠ Except.error LockError.ContentKeyNotSet
    ∧ (caller = s.owner → getContentKey s caller now = Except.ok s.contentKey)
    ∧ (caller ≠ s.owner →
        getContentKey s caller now = Except.error LockError.NoValidSubscription) := by
  have hexp := reachable_keyUnset_no_subscriber s hR hk
  refine ⟨?_, ?_, ?_⟩
  · unfold getContentKey
    split <;> simp
  · intro hc
    simp [getContentKey, hc]
  · intro hc
    simp [getContentKey, isSubscriptionValid, hc, hexp caller]

/-- Claim C3 witness for the amended statement: in the fresh deployment,
non-owner address 1 gets `NoValidSubscription` (not `ContentKeyNotSet`),
and the owner's call succeeds. -/
theorem getContentKey_keyUnset_behavior_witness :
    getContentKey freshLock 1 5 = Except.error LockError.NoValidSubscription
    ∧ getContentKey freshLock 0 5 = Except.ok freshLock.contentKey := by
  constructor
  · exact (getContentKey_keyUnset_behavior freshLock 1 5
      (ReachableLock.deploy 0 "n" 100 2592000 freshLock deploy_freshLock) rfl).2.2
      (by decide)
  · exact (getContentKey_keyUnset_behavior freshLock 0 5
      (ReachableLock.deploy 0 "n" 100 2592000 freshLock deploy_freshLock) rfl).2.1 rfl

/-! ### Claim C4 -/

/-- Claim C4 counterexample: after the owner's successful `setContentKey`,
a second attempt by non-owner address 1 fails with
`OwnableUnauthorizedAccount` (the `onlyOwner` modifier runs first), not
with `ContentKeyAlreadySet` as the claim states for "any caller". -/
theorem setContentKey_second_nonowner_error :
    setContentKey freshLock 0 42 = Except.ok (demoLock, [LockEvent.ContentKeySet 0])
    ∧ setContentKey demoLock 1 7 = Except.error (LockError.OwnableUnauthorizedAccount 1)
    ∧ setContentKey demoLock 1 7 ≠ Except.error LockError.ContentKeyAlreadySet := by
  refine ⟨setKey_demoLock, rfl, by simp [setContentKey, demoLock]⟩

/-- Claim C4 (amended): after one successful `setContentKey`, every
subsequent call fails — with `ContentKeyAlreadySet` when the caller is
the owner and with `OwnableUnauthorizedAccount` otherwise — and since a
failed call produces no post-state, the stored handle and the
`contentKeySet` flag keep the values of the first successful call. -/
theorem setContentKey_set_once (s0 s : LockState) (evs : List LockEvent)
    (c0 k0 caller key : Nat)
    (h : setContentKey s0 c0 k0 = Except.ok (s, evs)) :
    s.contentKeySet = true ∧ s.contentKey = k0
    ∧ (caller = s.owner →
        setContentKey s caller key = Except.error LockError.ContentKeyAlreadySet)
    ∧ (caller ≠ s.owner →
        setContentKey s caller key
          = Except.error (LockError.OwnableUnauthorizedAccount caller)) := by
  unfold setContentKey at h
  split at h
  · split at h
    · cases h
    · simp only [Except.ok.injEq, Prod.mk.injEq] at h
      obtain ⟨hs, -⟩ := h
      subst hs
      refine ⟨rfl, rfl, ?_, ?_⟩
      · intro hc
        simp [setContentKey, hc]
      · intro hc
        simp [setContentKey, hc]
  · cases h

/-- Claim C4 witness: in the demo run, the owner's second attempt fails
with `ContentKeyAlreadySet` and the flag and handle still read
`true` / 42. -/
theorem setContentKey_set_once_witness :
    demoLock.contentKeySet = true ∧ demoLock.contentKey = 42
    ∧ setContentKey demoLock 0 7 = Except.error LockError.ContentKeyAlreadySet := by
  have h := setContentKey_set_once freshLock demoLock [LockEvent.ContentKeySet 0] 0 42 0 7
    setKey_demoLock
  exact ⟨h.1, h.2.1, h.2.2.1 rfl⟩

/-! ### Claim C5 -/

/-- `getContentKey` characterized as a single conditional. -/
theorem getContentKey_eq (s : LockState) (caller now : Nat) :
    getContentKey s caller now =
      if s.expirationTimestamps caller ≤ now ∧ caller ≠ s.owner
      then Except.error LockError.NoValidSubscription
      else Except.ok s.contentKey := by
  unfold getContentKey isSubscriptionValid
  rcases Nat.lt_or_ge now (s.expirationTimestamps caller) with h1 | h1
  · have h1' : ¬ s.expirationTimestamps caller ≤ now := by omega
    by_cases h2 : caller = s.owner <;> simp [h1, h1', h2]
  · have h1' : ¬ s.expirationTimestamps caller > now := by omega
    have h1'' : s.expirationTimestamps caller ≤ now := h1
    by_cases h2 : caller = s.owner <;> simp [h1', h1'', h2]

/-- Claim C5: `getContentKey` succeeds for the owner in every state
(even if the owner never subscribed and even before any key was set);
a non-owner caller fails with `NoValidSubscription` exactly when their
expiration timestamp is ≤ now, and succeeds whenever it is > now. -/
theorem getContentKey_access_rule (s : LockState) (caller now : Nat) :
    (caller = s.owner → getContentKey s caller now = Except.ok s.contentKey)
    ∧ (caller ≠ s.owner →
        (getContentKey s caller now = Except.error LockError.NoValidSubscription
          ↔ s.expirationTimestamps caller ≤ now)
        ∧ (now < s.expirationTimestamps caller →
            getContentKey s caller now = Except.ok s.contentKey)) := by
  constructor
  · intro hc
    simp [getContentKey_eq, hc]
  · intro hc
    constructor
    · by_cases hle : s.expirationTimestamps caller ≤ now <;> simp [getContentKey_eq, hc, hle]
    · intro hlt
      have hle : ¬ s.expirationTimestamps caller ≤ now := by omega
      simp [getContentKey_eq, hc, hle]

/-- Claim C5 witness: the owner reads the key in the fresh demo state;
address 1 with no record is rejected at time 0 and succeeds right after
subscribing. -/
theorem getContentKey_access_rule_witness :
    getContentKey demoLock 0 0 = Except.ok 42
    ∧ getContentKey demoLock 1 0 = Except.error LockError.NoValidSubscription
    ∧ ∃ s' refund evs, subscribe demoLock 1 100 0 = Except.ok (s', refund, evs)
        ∧ getContentKey s' 1 0 = Except.ok 42 := by
  refine ⟨(getContentKey_access_rule demoLock 0 0).1 rfl,
    ((getContentKey_access_rule demoLock 1 0).2 (by decide)).1.mpr (by decide),
    _, _, _, rfl, ?_⟩
  exact ((getContentKey_access_rule _ 1 0).2 (by decide)).2 (by decide)

/-! ### Claim C6 -/

/-- Claim C6 counterexample: with the content key unset, an underpaying
subscribe (50 < price 100) fails with `ContentKeyNotSet`, not with
`InsufficientPayment` as the claim states for every underpaying call. -/
theorem subscribe_underpay_keyUnset_error :
    freshLock.contentKeySet = false
    ∧ (50 : Nat) < freshLock.subscriptionPrice
    ∧ subscribe freshLock 1 50 0 = Except.error LockError.ContentKeyNotSet
    ∧ subscribe freshLock 1 50 0
        ≠ Except.error (LockError.InsufficientPayment freshLock.subscriptionPrice 50) := by
  refine ⟨rfl, by decide, rfl, by simp [subscribe, freshLock]⟩

/-- Claim C6 (amended): once the content key is set, every subscribe
call with `paidAmount < priceRequired` fails with
`InsufficientPayment(required, provided)`; the reverted call produces no
post-state, so the ledger is unchanged (no partial grant).  With the key
unset the call fails earlier, with `ContentKeyNotSet`. -/
theorem subscribe_insufficient_payment (s : LockState) (caller value now : Nat)
    (hset : s.contentKeySet = true) (hval : value < s.subscriptionPrice) :
    subscribe s caller value now
      = Except.error (LockError.InsufficientPayment s.subscriptionPrice value) := by
  simp [subscribe, hset, hval]

/-- Claim C6 witness: paying 50 against price 100 in the demo state is
rejected with `InsufficientPayment(100, 50)`. -/
theorem subscribe_insufficient_payment_witness :
    subscribe demoLock 1 50 0
      = Except.error (LockError.InsufficientPayment 100 50) := by
  exact subscribe_insufficient_payment demoLock 1 50 0 rfl (by decide)

/-! ### Claim C7 -/

/-- Claim C7: an owner-issued `updateSubscriptionParams` fails with
`InvalidDuration` exactly when the new duration is 0, and on success
changes only the stored price and duration: every other storage field —
in particular every existing expiration record — is unchanged. -/
theorem updateParams_duration_and_frame (s : LockState)
    (caller newPrice newDuration : Nat) (hc : caller = s.owner) :
    (updateSubscriptionParams s caller newPrice newDuration
        = Except.error LockError.InvalidDuration ↔ newDuration = 0)
    ∧ (∀ s' evs,
        updateSubscriptionParams s caller newPrice newDuration = Except.ok (s', evs) →
        s'.subscriptionPrice = newPrice ∧ s'.subscriptionDuration = newDuration
        ∧ s'.expirationTimestamps = s.expirationTimestamps
        ∧ s'.owner = s.owner ∧ s'.name = s.name
        ∧ s'.contentKey = s.contentKey ∧ s'.contentKeySet = s.contentKeySet
        ∧ s'.totalRevenue = s.totalRevenue ∧ s'.aclAllowed = s.aclAllowed
        ∧ s'.aclThis = s.aclThis ∧ s'.balance = s.balance) := by
  constructor
  · by_cases hd : newDuration = 0 <;> simp [updateSubscriptionParams, hc, hd]
  · intro s' evs h
    unfold updateSubscriptionParams at h
    rw [if_pos hc] at h
    split at h
    · cases h
    · simp only [Except.ok.injEq, Prod.mk.injEq] at h
      obtain ⟨hs, -⟩ := h
      subst hs
      exact ⟨rfl, rfl, rfl, rfl, rfl, rfl, rfl, rfl, rfl, rfl, rfl⟩

/-- Claim C7 witness: duration 0 is rejected; updating to price 7,
duration 9 succeeds and leaves the expiration table untouched. -/
theorem updateParams_duration_and_frame_witness :
    updateSubscriptionParams demoLock 0 7 0 = Except.error LockError.InvalidDuration
    ∧ ∃ s' evs, updateSubscriptionParams demoLock 0 7 9 = Except.ok (s', evs)
        ∧ s'.subscriptionPrice = 7 ∧ s'.subscriptionDuration = 9
        ∧ s'.expirationTimestamps = demoLock.expirationTimestamps := by
  constructor
  · exact (updateParams_duration_and_frame demoLock 0 7 0 rfl).1.mpr rfl
  · refine ⟨_, _, rfl, ?_⟩
    have h := (updateParams_duration_and_frame demoLock 0 7 9 rfl).2 _ _ rfl
    exact ⟨h.1, h.2.1, h.2.2.1⟩

/-! ### Claim C10 -/

/-- Claim C10 counterexample: while the vault is empty, a grant call by
non-owner address 1 fails with `OwnableUnauthorizedAccount` (the
modifier runs before the key check), not with `ContentKeyNotSet`. -/
theorem grant_nonowner_keyUnset_error :
    freshLock.contentKeySet = false
    ∧ grantSubscription freshLock 1 2 3600 0
        = Except.error (LockError.OwnableUnauthorizedAccount 1)
    ∧ grantSubscription freshLock 1 2 3600 0
        ≠ Except.error LockError.ContentKeyNotSet := by
  refine ⟨rfl, rfl, by simp [grantSubscription, freshLock]⟩

/-- Claim C10 (amended): while the content key is unset, every
`subscribe` call fails with `ContentKeyNotSet` (before any payment or
expiration processing), and every `grantSubscription` call fails too —
with `ContentKeyNotSet` for the owner and `OwnableUnauthorizedAccount`
for anyone else — so no SubscriptionRecord is ever created or extended
while the vault is empty. -/
theorem keyUnset_blocks_subscriptions (s : LockState)
    (caller value now subscriber duration : Nat) (hk : s.contentKeySet = false) :
    subscribe s caller value now = Except.error LockError.ContentKeyNotSet
    ∧ (caller = s.owner →
        grantSubscription s caller subscriber duration now
          = Except.error LockError.ContentKeyNotSet)
    ∧ (caller ≠ s.owner →
        grantSubscription s caller subscriber duration now
          = Except.error (LockError.OwnableUnauthorizedAccount caller)) := by
  refine ⟨by simp [subscribe, hk], fun hc => by simp [grantSubscription, hc, hk],
    fun hc => by simp [grantSubscription, hc]⟩

/-- Claim C10 witness: in the fresh deployment, a fully funded subscribe
and an owner grant both fail with `ContentKeyNotSet`. -/
theorem keyUnset_blocks_subscriptions_witness :
    subscribe freshLock 1 200 0 = Except.error LockError.ContentKeyNotSet
    ∧ grantSubscription freshLock 0 2 3600 0
        = Except.error LockError.ContentKeyNotSet := by
  have h := keyUnset_blocks_subscriptions freshLock 0 200 0 2 3600 rfl
  have h1 := keyUnset_blocks_subscriptions freshLock 1 200 0 2 3600 rfl
  exact ⟨h1.1, h.2.1 rfl⟩

/-!
Part 2 embeds the EnvelopeCodec `src/src/lib/crypto.ts`.  Byte arrays
and JS binary strings are `List Nat` (char-code lists); hex key strings
are `List Char`.  The platform primitives the file calls —
`crypto.subtle.encrypt`/`decrypt` with AES-GCM, `btoa`/`atob`,
`TextEncoder`/`TextDecoder` — are not code of this repository, so they
are parameters, constrained only by their documented contracts in
`PlatformSound`; `B64` abstracts the base64-string representation
produced by `btoa`.  The random 12-byte IV (`generateIv`) is an explicit
argument, randomness being external. -/
structure CryptoPlatform (B64 : Type) where
  aesGcmEncrypt : List Nat → List Nat → List Nat → List Nat
  aesGcmDecrypt : List Nat → List Nat → List Nat → Option (List Nat)
  btoaFn : List Nat → B64
  atobFn : B64 → List Nat
  textEncode : String → List Nat
  textDecode : List Nat → String

/-- The documented behaviour of the platform primitives: AES-GCM
decryption inverts encryption under the same key and rejects a
different key (WebCrypto throws `OperationError` on tag failure, which
`decryptContent` surfaces as a rejected promise, modelled `none`);
`atob` inverts `btoa`; `TextDecoder` inverts `TextEncoder`. -/
structure PlatformSound {B64 : Type} (p : CryptoPlatform B64) : Prop where
  aes_roundtrip : ∀ k iv d, p.aesGcmDecrypt k iv (p.aesGcmEncrypt k iv d) = some d
  aes_auth : ∀ k k2 iv d, k2 ≠ k → p.aesGcmDecrypt k2 iv (p.aesGcmEncrypt k iv d) = none
  atob_btoa : ∀ bs, p.atobFn (p.btoaFn bs) = bs
  text_roundtrip : ∀ s, p.textDecode (p.textEncode s) = s

/-- `parseInt(c, 16)` digit value; invalid characters (which would give
`NaN` in JS) are mapped to 0, a case no claim exercises. -/
def hexDigitVal (c : Char) : Nat :=
  if '0' ≤ c ∧ c ≤ '9' then c.toNat - '0'.toNat
  else if 'a' ≤ c ∧ c ≤ 'f' then c.toNat - 'a'.toNat + 10
  else if 'A' ≤ c ∧ c ≤ 'F' then c.toNat - 'A'.toNat + 10
  else 0

/-- `hexToBytes(hex)`: strip a leading `0x`, then read
`cleanHex.length / 2` bytes, byte `i` being
`parseInt(cleanHex.substr(i * 2, 2), 16)`. -/
def hexToBytes (hex : List Char) : List Nat :=
  let cleanHex := match hex with
    | '0' :: 'x' :: rest => rest
    | _ => hex
  (List.range (cleanHex.length / 2)).map fun i =>
    16 * hexDigitVal (cleanHex.getD (2 * i) '0') + hexDigitVal (cleanHex.getD (2 * i + 1) '0')

/-- `bytesToBase64(bytes)`: build the binary string char-by-char
(`binary += String.fromCharCode(bytes[i])`), then `btoa`. -/
def bytesToBase64 {B64 : Type} (p : CryptoPlatform B64) (bytes : List Nat) : B64 :=
  let binary := bytes.foldl (fun acc b => acc ++ [b]) ([] : List Nat)
  p.btoaFn binary

/-- `base64ToBytes(base64)`: `atob`, then read `binary.charCodeAt(i)`
for each index. -/
def base64ToBytes {B64 : Type} (p : CryptoPlatform B64) (base64 : B64) : List Nat :=
  let binary := p.atobFn base64
  (List.range binary.length).map fun i => binary.getD i 0

/-- `encryptContent(content, keyHex)`: import the AES key from hex,
UTF-8-encode the content, AES-GCM-encrypt it under the fresh IV, and
return the base64 IV together with the base64 ciphertext. -/
def encryptContent {B64 : Type} (p : CryptoPlatform B64) (iv : List Nat)
    (content : String) (keyHex : List Char) : B64 × B64 :=
  let keyBytes := hexToBytes keyHex
  let contentBytes := p.textEncode content
  let encryptedBytes := p.aesGcmEncrypt keyBytes iv contentBytes
  (bytesToBase64 p iv, bytesToBase64 p encryptedBytes)

/-- `decryptContent(encryptedContent, iv, keyHex)`: decode both base64
inputs, AES-GCM-decrypt, and UTF-8-decode the result; `none` is the
authentication failure of `crypto.subtle.decrypt`. -/
def decryptContent {B64 : Type} (p : CryptoPlatform B64) (encryptedContent iv : B64)
    (keyHex : List Char) : Option String :=
  let keyBytes := hexToBytes keyHex
  let ivBytes := base64ToBytes p iv
  let encryptedBytes := base64ToBytes p encryptedContent
  (p.aesGcmDecrypt keyBytes ivBytes encryptedBytes).map p.textDecode

theorem foldl_push_eq_append (l acc : List Nat) :
    l.foldl (fun acc b => acc ++ [b]) acc = acc ++ l := by
  induction l generalizing acc with
  | nil => simp
  | cons b l ih => simp [List.foldl_cons, ih]

theorem range_getD_eq_self (l : List Nat) :
    (List.range l.length).map (fun i => l.getD i 0) = l := by
  apply List.ext_getElem
  · simp
  · intro i h1 h2
    simp [List.getD_eq_getElem?_getD, List.getElem?_eq_getElem h2]

/-- Decoding inverts encoding at the repository's base64 layer. -/
theorem base64_bytes_roundtrip {B64 : Type} (p : CryptoPlatform B64)
    (hp : ∀ bs, p.atobFn (p.btoaFn bs) = bs) (bytes : List Nat) :
    base64ToBytes p (bytesToBase64 p bytes) = bytes := by
  unfold base64ToBytes bytesToBase64
  rw [foldl_push_eq_append, List.nil_append, hp, range_getD_eq_self]

/-! ### Claim C8 -/

/-- Claim C8: for every plaintext, key and IV, opening a sealed envelope
with the sealing key returns the original plaintext, and opening it with
any key whose imported bytes differ fails authentication (returns no
plaintext at all), given the documented contract of the platform AES-GCM
/ base64 / UTF-8 primitives that `crypto.ts` delegates to. -/
theorem envelope_seal_open_roundtrip {B64 : Type} (p : CryptoPlatform B64)
    (hp : PlatformSound p) (content : String) (keyHex otherKeyHex : List Char)
    (iv : List Nat) (hk : hexToBytes otherKeyHex ≠ hexToBytes keyHex) :
    decryptContent p (encryptContent p iv content keyHex).2
        (encryptContent p iv content keyHex).1 keyHex = some content
    ∧ decryptContent p (encryptContent p iv content keyHex).2
        (encryptContent p iv content keyHex).1 otherKeyHex = none := by
  unfold decryptContent encryptContent
  dsimp only
  rw [base64_bytes_roundtrip p hp.atob_btoa, base64_bytes_roundtrip p hp.atob_btoa]
  constructor
  · rw [hp.aes_roundtrip]
    simp [hp.text_roundtrip]
  · rw [hp.aes_auth _ _ _ _ hk]
    rfl

/-- A concrete platform satisfying the documented contracts, used to
witness that the hypotheses of the round-trip theorem are satisfiable:
ciphertexts carry the key length, the key and the payload; base64 is the
identity coding on char-code lists; text encoding maps chars to their
code points. -/
def demoPlatform : CryptoPlatform (List Nat) where
  aesGcmEncrypt := fun k _iv d => k.length :: (k ++ d)
  aesGcmDecrypt := fun k _iv ct =>
    match ct with
    | [] => none
    | n :: rest => if n = k.length ∧ rest.take k.length = k then some (rest.drop k.length)
        else none
  btoaFn := id
  atobFn := id
  textEncode := fun s => s.data.map Char.toNat
  textDecode := fun l => String.mk (l.map Char.ofNat)

theorem demoPlatform_sound : PlatformSound demoPlatform := by
  constructor
  · intro k iv d
    simp [demoPlatform, List.take_left, List.drop_left]
  · intro k k2 iv d hne
    simp only [demoPlatform]
    rw [if_neg]
    rintro ⟨hlen, htake⟩
    rw [← hlen, List.take_left] at htake
    exact hne htake.symm
  · intro bs
    rfl
  · intro s
    simp [demoPlatform]
    congr 1
    calc s.data.map (fun c => Char.ofNat c.toNat) = s.data.map id := by
          apply List.map_congr_left
          intro c _
          exact Char.ofNat_toNat c
      _ = s.data := List.map_id s.data

/-- Claim C8 witness: on the concrete platform, sealing "ab" under key
bytes `hexToBytes "00ff"` and opening with the same key returns "ab";
opening with key "00fe" fails. -/
theorem envelope_seal_open_roundtrip_witness :
    decryptContent demoPlatform
        (encryptContent demoPlatform [1, 2] "ab" ['0', '0', 'f', 'f']).2
        (encryptContent demoPlatform [1, 2] "ab" ['0', '0', 'f', 'f']).1
        ['0', '0', 'f', 'f'] = some "ab"
    ∧ decryptContent demoPlatform
        (encryptContent demoPlatform [1, 2] "ab" ['0', '0', 'f', 'f']).2
        (encryptContent demoPlatform [1, 2] "ab" ['0', '0', 'f', 'f']).1
        ['0', '0', 'f', 'e'] = none := by
  exact envelope_seal_open_roundtrip demoPlatform demoPlatform_sound "ab"
    ['0', '0', 'f', 'f'] ['0', '0', 'f', 'e'] [1, 2] (by decide)

/-!
Part 3 embeds the decryption-handshake request assembly of
`src/src/lib/fhevm.js` (`requestUserDecryption` and `decryptValue`).
The relayer SDK is external: `generateKeypair()` is modelled by passing
this call's freshly generated keypair as an argument, and `Date.now()`
by the `nowMs` argument. -/

/-- Output of `relayer.generateKeypair()`. -/
structure Keypair where
  publicKey : Nat
  privateKey : Nat
  deriving DecidableEq, Repr

/-- One element of `handleContractPairs`. -/
structure HandleContractPair where
  handle : Nat
  contractAddress : Nat
  deriving DecidableEq, Repr

/-- The material assembled for `createEIP712` + `userDecrypt`: the
ephemeral keypair, the targeted handle/contract pairs, and the signed
authorization window `[startTimeStamp, startTimeStamp + durationDays]`. -/
structure UserDecryptRequest where
  keypair : Keypair
  handleContractPairs : List HandleContractPair
  startTimeStamp : Nat
  durationDays : Nat
  contractAddresses : List Nat
  deriving DecidableEq, Repr

/-- `requestUserDecryption(contractAddress, signer, ciphertextHandle)`:
`generatedKeypair` is this call's `relayer.generateKeypair()` output;
the code fixes `durationDays = "10"` and
`startTimeStamp = Math.floor(Date.now() / 1000)`. -/
def requestUserDecryption (generatedKeypair : Keypair) (nowMs : Nat)
    (contractAddress ciphertextHandle : Nat) : UserDecryptRequest :=
  { keypair := generatedKeypair
    handleContractPairs := [{ handle := ciphertextHandle, contractAddress := contractAddress }]
    startTimeStamp := nowMs / 1000
    durationDays := 10
    contractAddresses := [contractAddress] }

/-- `decryptValue(encryptedBytes, contractAddress, signer)` assembles
the identical request material (same constants, same shape). -/
def decryptValue (generatedKeypair : Keypair) (nowMs : Nat)
    (contractAddress encryptedBytes : Nat) : UserDecryptRequest :=
  { keypair := generatedKeypair
    handleContractPairs := [{ handle := encryptedBytes, contractAddress := contractAddress }]
    startTimeStamp := nowMs / 1000
    durationDays := 10
    contractAddresses := [contractAddress] }

/-! ### Claim C9 -/

/-- Claim C9: every handshake request embeds the keypair generated for
that very call (no caching — the request is a function of this call's
generator output), fixes the validity window at 10 days, and stamps the
request with the issue time `floor(Date.now() / 1000)`; `decryptValue`
assembles the identical statement. -/
theorem handshake_fixed_window (kp : Keypair) (nowMs contractAddress ciphertextHandle : Nat) :
    (requestUserDecryption kp nowMs contractAddress ciphertextHandle).durationDays = 10
    ∧ (requestUserDecryption kp nowMs contractAddress ciphertextHandle).startTimeStamp
        = nowMs / 1000
    ∧ (requestUserDecryption kp nowMs contractAddress ciphertextHandle).keypair = kp
    ∧ decryptValue kp nowMs contractAddress ciphertextHandle
        = requestUserDecryption kp nowMs contractAddress ciphertextHandle :=
  ⟨rfl, rfl, rfl, rfl⟩
